import Mathlib

/-!
# Verification of the RF intrusion detection engine (`rf_ids.py`)

Shallow embedding of the spectral-anomaly and proximity-detection engine of
`src/rf_ids.py`. dB power levels, frequencies, distances and timestamps are
modelled as rationals (the Python code uses floats, but every operation the
claims touch is field arithmetic and comparison, which ℚ models exactly).

Embedded functions, in source order:
- `scan_anomalies`  : the anomaly loop of `scan_for_intrusions` (lines 1154-1167);
- `check_proximity_breach` : lines 999-1095;
- `scan_for_intrusions` : the control flow of lines 1097-1198;
- `send_alert` / `send_proximity_alert` : the throttle logic of lines 1297-1306
  and 1375-1384;
- `monitor_frequency` : the retry/drop logic of lines 1491-1560;
- `observe` : the Device Tracker, modelled from the spec (absent from the source).
-/

namespace RFIDS

/-- One anomaly record, exactly the dict built at `src/rf_ids.py:1162-1167`:
`{'frequency': freq, 'baseline_power': ..., 'current_power': ..., 'difference': ...}`.
The source attaches no other data to an anomaly. -/
structure Anomaly where
  frequency : ℚ
  baseline_power : ℚ
  current_power : ℚ
  difference : ℚ
  deriving DecidableEq, Repr

/-- The anomaly-detection loop of `scan_for_intrusions` (`src/rf_ids.py:1154-1167`):
`diff = current_psd - baseline_psd`; for each index `i` of `frequencies`,
include the bin iff `abs(diff[i]) > threshold`. Index-aligned lists model the
numpy arrays; `getD` with default `0` stands for the (in-range) array indexing. -/
def scan_anomalies (frequencies baseline_psd current_psd : List ℚ) (threshold : ℚ) :
    List Anomaly :=
  (List.range frequencies.length).filterMap fun i =>
    let d := current_psd.getD i 0 - baseline_psd.getD i 0
    if |d| > threshold then
      some ⟨frequencies.getD i 0, baseline_psd.getD i 0, current_psd.getD i 0, d⟩
    else none

/-- Device class of a proximity detection (`'wireless'` / `'cellular'` in the source). -/
inductive DeviceType where
  | wireless
  | cellular
  deriving DecidableEq, Repr

/-- `'early'` vs `'alert'` value of the `alert_level` key in the source dicts. -/
inductive AlertLevel where
  | early
  | alert
  deriving DecidableEq, Repr

/-- One proximity-detection dict, as built at `src/rf_ids.py:1040-1047` (early),
`1054-1061` (wireless alert), `1072-1079` (cellular early), `1086-1093`
(cellular alert). -/
structure ProximityDetection where
  dtype : DeviceType
  distance : ℚ
  power : ℚ
  reference : ℚ
  frequency : ℚ
  alert_level : AlertLevel
  deriving DecidableEq, Repr

/-- The configuration fields `check_proximity_breach` reads:
`proximity_detection.enabled`, `proximity_detection.calibration_needed`,
`calibration_values.{wireless_freq, wireless_power, cellular_freq, cellular_power}`
(with `has_calibration = false` modelling an empty `calibration_values` dict),
and the `bluetooth_distance_threshold` / `cellular_distance_threshold` entries. -/
structure ProximityConfig where
  enabled : Bool
  calibration_needed : Bool
  has_calibration : Bool
  wireless_freq : ℚ
  wireless_power : ℚ
  cellular_freq : ℚ
  cellular_power : ℚ
  bluetooth_distance_threshold : ℚ
  cellular_distance_threshold : ℚ
  deriving DecidableEq, Repr

/-- `np.max` over the PSD list (`src/rf_ids.py:1025`); total with default `0`
on the empty list, which the source never passes here. -/
def np_max (l : List ℚ) : ℚ := l.foldl max (l.headD 0)

/-- `check_proximity_breach` (`src/rf_ids.py:999-1095`). Returns the pair of
the function's return value (`False` ↦ `none`, a breach dict ↦ `some`) and the
list of early-detection dicts written to the dashboard along the way, in
program order. `extended_ref = ref_power + (-6)`. -/
def check_proximity_breach (cfg : ProximityConfig) (current_freq : ℚ)
    (current_psd : List ℚ) : Option ProximityDetection × List ProximityDetection :=
  if ¬ cfg.enabled then (none, [])
  else if cfg.calibration_needed then (none, [])
  else if ¬ cfg.has_calibration then (none, [])
  else
    let is_wireless_proxy := current_freq = cfg.wireless_freq
    let is_cellular_proxy := current_freq = cfg.cellular_freq
    if ¬ (is_wireless_proxy ∨ is_cellular_proxy) then (none, [])
    else
      let max_power := np_max current_psd
      let w_early : List ProximityDetection :=
        if is_wireless_proxy ∧ max_power > cfg.wireless_power + (-6) ∧
            max_power ≤ cfg.wireless_power then
          [⟨.wireless, cfg.bluetooth_distance_threshold * 2, max_power,
            cfg.wireless_power + (-6), current_freq, .early⟩]
        else []
      if is_wireless_proxy ∧ max_power > cfg.wireless_power then
        (some ⟨.wireless, cfg.bluetooth_distance_threshold, max_power,
          cfg.wireless_power, current_freq, .alert⟩, w_early)
      else
        let c_early : List ProximityDetection :=
          if is_cellular_proxy ∧ max_power > cfg.cellular_power + (-6) ∧
              max_power ≤ cfg.cellular_power then
            [⟨.cellular, cfg.cellular_distance_threshold * 2, max_power,
              cfg.cellular_power + (-6), current_freq, .early⟩]
          else []
        if is_cellular_proxy ∧ max_power > cfg.cellular_power then
          (some ⟨.cellular, cfg.cellular_distance_threshold, max_power,
            cfg.cellular_power, current_freq, .alert⟩, w_early ++ c_early)
        else (none, w_early ++ c_early)

/-- Result of one `scan_for_intrusions` call (`src/rf_ids.py:1097-1198`),
distinguishing the return paths: missing per-frequency baseline (lines
1106-1119, carrying whether `create_baseline_for_frequency` succeeded), empty
capture (lines 1122-1125), confirmed proximity breach (lines 1127-1147),
anomalies found (lines 1170-1196), or a clean scan (line 1198). -/
inductive ScanOutcome where
  | baselineCreated (success : Bool)
  | captureError
  | proximityAlert (breach : ProximityDetection)
  | anomaliesFound (anomalies : List Anomaly)
  | clean
  deriving DecidableEq, Repr

/-- The boolean each return path of `scan_for_intrusions` produces: `True`
(detection) for a proximity breach or a non-empty anomaly list, `False`
otherwise. -/
def scan_detected : ScanOutcome → Bool
  | .proximityAlert _ => true
  | .anomaliesFound _ => true
  | _ => false

/-- Control flow of `scan_for_intrusions` (`src/rf_ids.py:1097-1198`).
`store` is the per-frequency baseline map `self.baseline['data']` (giving the
`psd_mean` list), `create_success` the outcome of the lazily triggered
`create_baseline_for_frequency`, and `captured` the `(frequencies, psd)` pair
returned by `capture_spectrum`. The startup-only `self.baseline is None`
bootstrap (lines 1099-1103) creates the whole store before any per-frequency
logic runs, so `store` models the store after that bootstrap. Proximity is
checked first; the anomaly loop runs only when no breach is returned. -/
def scan_for_intrusions (store : ℚ → Option (List ℚ)) (create_success : Bool)
    (cfg : ProximityConfig) (threshold : ℚ) (current_freq : ℚ)
    (captured : List ℚ × List ℚ) : ScanOutcome :=
  match store current_freq with
  | none => .baselineCreated create_success
  | some baseline_psd =>
    let frequencies := captured.1
    let current_psd := captured.2
    if frequencies.length = 0 then .captureError
    else
      match (check_proximity_breach cfg current_freq current_psd).1 with
      | some breach => .proximityAlert breach
      | none =>
        let anomalies := scan_anomalies frequencies baseline_psd current_psd threshold
        if anomalies.isEmpty then .clean else .anomaliesFound anomalies

/-- The alert-throttle state the detector instance keeps: `self.last_alert_time`
and `self.alert_count` (`src/rf_ids.py:104-105`). Timestamps are seconds as
rationals; one single instance is shared by both alert categories. -/
structure AlertState where
  last_alert_time : ℚ
  alert_count : ℕ
  deriving DecidableEq, Repr

/-- Throttle decision of `send_alert` (`src/rf_ids.py:1297-1306`): drop the
notification when fewer than 300 seconds elapsed since `last_alert_time`,
otherwise send, record `now`, and bump the count. Returns (sent?, new state). -/
def send_alert (s : AlertState) (now : ℚ) : Bool × AlertState :=
  if now - s.last_alert_time < 300 then (false, s)
  else (true, ⟨now, s.alert_count + 1⟩)

/-- Throttle decision of `send_proximity_alert` (`src/rf_ids.py:1375-1384`):
same shape as `send_alert` but with a 60-second minimum interval, reading and
writing the same shared state. -/
def send_proximity_alert (s : AlertState) (now : ℚ) : Bool × AlertState :=
  if now - s.last_alert_time < 60 then (false, s)
  else (true, ⟨now, s.alert_count + 1⟩)

/-- Outcome of one monitoring attempt inside `monitor_frequency`
(`src/rf_ids.py:1496-1531`): either `scan_for_intrusions` returns a boolean, or
an exception is raised. -/
inductive AttemptResult where
  | ok (detected : Bool)
  | err
  deriving DecidableEq, Repr

/-- Summary of a `monitor_frequency` run: the returned boolean, whether the
frequency was removed from `self.config['frequencies']`, how many attempts ran,
and the total seconds slept in 2-second backoffs. -/
structure MonitorOutcome where
  result : Bool
  dropped : Bool
  attempts_made : ℕ
  backoff_secs : ℕ
  deriving DecidableEq, Repr

/-- Retry/drop logic of `monitor_frequency` (`src/rf_ids.py:1491-1560`):
`max_retries = 3`; after a failed non-final attempt the code sleeps 2 seconds
and re-initializes the device, swallowing any re-initialization error
(`reinit1`/`reinit2` record those outcomes, which never change the control
flow); after the third failure the frequency is dropped and `False` returned. -/
def monitor_frequency (a0 a1 a2 : AttemptResult) (reinit1 reinit2 : Bool) :
    MonitorOutcome :=
  match a0 with
  | .ok r => ⟨r, false, 1, 0⟩
  | .err =>
    let _ := reinit1
    match a1 with
    | .ok r => ⟨r, false, 2, 2⟩
    | .err =>
      let _ := reinit2
      match a2 with
      | .ok r => ⟨r, false, 3, 4⟩
      | .err => ⟨false, true, 3, 4⟩

/-- `EarlyDetection` / `Alert` status of a tracked entity (spec §3). -/
inductive TrackStatus where
  | earlyDetection
  | alert
  deriving DecidableEq, Repr

/-- A Device Tracker record (spec §3). -/
structure TrackedEntity where
  identity : String
  first_seen : ℚ
  last_seen : ℚ
  last_status : TrackStatus
  deriving DecidableEq, Repr

/-- Modelled from the spec: the Device Tracker's `observe` operation (§4.4) is
described in the spec but absent from `src/rf_ids.py` (the source keeps no
first-seen/last-seen records). `observe(identity, status, at)` inserts with
`first_seen = last_seen = at` when the identity is new, else updates
`last_seen`/`last_status` in place; returns the now-current record and the
updated tracker. -/
def observe (tracker : List TrackedEntity) (identity : String)
    (status : TrackStatus) (t : ℚ) : TrackedEntity × List TrackedEntity :=
  match tracker.find? (fun e => e.identity = identity) with
  | some e =>
    (⟨e.identity, e.first_seen, t, status⟩,
      tracker.map fun x =>
        if x.identity = identity then ⟨x.identity, x.first_seen, t, status⟩ else x)
  | none =>
    (⟨identity, t, t, status⟩, tracker ++ [⟨identity, t, t, status⟩])

end RFIDS

namespace RFIDS

/-- C1 -- Deviation scorer membership: for index-aligned baseline and sample,
a bin `i` contributes an anomaly record iff `|current[i] - baseline[i]| > threshold`,
with strict inequality, so the boundary case `|diff| = threshold` is excluded. -/
theorem scan_anomalies_mem_iff (f b c : List ℚ) (t : ℚ)
    (_hb : b.length = f.length) (_hc : c.length = f.length) (a : Anomaly) :
    a ∈ scan_anomalies f b c t ↔
      ∃ i, i < f.length ∧ |c.getD i 0 - b.getD i 0| > t ∧
        a = ⟨f.getD i 0, b.getD i 0, c.getD i 0, c.getD i 0 - b.getD i 0⟩ := by
  unfold scan_anomalies
  simp only [List.mem_filterMap, List.mem_range]
  constructor
  · rintro ⟨i, hi, hsome⟩
    refine ⟨i, hi, ?_⟩
    split at hsome
    case isTrue h => exact ⟨h, (Option.some.inj hsome).symm⟩
    case isFalse h => exact absurd hsome (by simp)
  · rintro ⟨i, hi, h, ha⟩
    exact ⟨i, hi, by rw [if_pos h, ha]⟩

/-- Witness for C1, on the spec's end-to-end example: baseline `[-80,-80,-80]`
over bins `[100.0,100.1,100.2]`, sample `[-80,-65,-80]`, threshold `10` —
bin `100.1` is an anomaly with difference `15`. -/
theorem scan_anomalies_mem_iff_witness :
    (⟨100.1, -80, -65, 15⟩ : Anomaly) ∈
      scan_anomalies [100.0, 100.1, 100.2] [-80, -80, -80] [-80, -65, -80] 10 :=
  (scan_anomalies_mem_iff [100.0, 100.1, 100.2] [-80, -80, -80] [-80, -65, -80] 10
    rfl rfl _).mpr ⟨1, by norm_num, by norm_num, by norm_num⟩

/-- C2 -- Proximity tiers. For each calibrated device class with reference
power `R` (extended reference `R + (-6)`, i.e. `R - 6`), when the scan is at
that class's reference frequency (and not the other class's): max power in
`(R-6, R]` yields exactly one early detection at double the alert distance and
no returned breach; max power `> R` returns the confirmed breach at the alert
distance (and no early detection); max power `≤ R-6` yields neither. -/
theorem check_proximity_breach_tiers (cfg : ProximityConfig) (f : ℚ) (psd : List ℚ)
    (hE : cfg.enabled = true) (hN : cfg.calibration_needed = false)
    (hH : cfg.has_calibration = true) :
    (f = cfg.wireless_freq → f ≠ cfg.cellular_freq →
      ((np_max psd > cfg.wireless_power + (-6) → np_max psd ≤ cfg.wireless_power →
        check_proximity_breach cfg f psd =
          (none, [⟨.wireless, cfg.bluetooth_distance_threshold * 2, np_max psd,
            cfg.wireless_power + (-6), f, .early⟩])) ∧
       (np_max psd > cfg.wireless_power →
        check_proximity_breach cfg f psd =
          (some ⟨.wireless, cfg.bluetooth_distance_threshold, np_max psd,
            cfg.wireless_power, f, .alert⟩, [])) ∧
       (np_max psd ≤ cfg.wireless_power + (-6) →
        check_proximity_breach cfg f psd = (none, [])))) ∧
    (f = cfg.cellular_freq → f ≠ cfg.wireless_freq →
      ((np_max psd > cfg.cellular_power + (-6) → np_max psd ≤ cfg.cellular_power →
        check_proximity_breach cfg f psd =
          (none, [⟨.cellular, cfg.cellular_distance_threshold * 2, np_max psd,
            cfg.cellular_power + (-6), f, .early⟩])) ∧
       (np_max psd > cfg.cellular_power →
        check_proximity_breach cfg f psd =
          (some ⟨.cellular, cfg.cellular_distance_threshold, np_max psd,
            cfg.cellular_power, f, .alert⟩, [])) ∧
       (np_max psd ≤ cfg.cellular_power + (-6) →
        check_proximity_breach cfg f psd = (none, [])))) := by
  constructor
  · intro hw hc
    subst hw
    refine ⟨fun hgt hle => ?_, fun hgt => ?_, fun hle => ?_⟩
    · simp [check_proximity_breach, hE, hN, hH, hc, hgt, hle, not_lt.mpr hle]
    · have hle6 : ¬ np_max psd ≤ cfg.wireless_power :=
        not_le.mpr hgt
      simp [check_proximity_breach, hE, hN, hH, hc, hgt, hle6]
    · have h1 : ¬ np_max psd > cfg.wireless_power + (-6) := not_lt.mpr hle
      have h2 : ¬ np_max psd > cfg.wireless_power :=
        not_lt.mpr (hle.trans (by linarith))
      simp [check_proximity_breach, hE, hN, hH, hc, h1, h2]
  · intro hw hc
    subst hw
    refine ⟨fun hgt hle => ?_, fun hgt => ?_, fun hle => ?_⟩
    · simp [check_proximity_breach, hE, hN, hH, hc, hgt, hle, not_lt.mpr hle]
    · have hle6 : ¬ np_max psd ≤ cfg.cellular_power :=
        not_le.mpr hgt
      simp [check_proximity_breach, hE, hN, hH, hc, hgt, hle6]
    · have h1 : ¬ np_max psd > cfg.cellular_power + (-6) := not_lt.mpr hle
      have h2 : ¬ np_max psd > cfg.cellular_power :=
        not_lt.mpr (hle.trans (by linarith))
      simp [check_proximity_breach, hE, hN, hH, hc, h1, h2]

/-- Witness for C2, at the spec's concrete numbers: reference power `-40`,
wireless frequency `915`, alert distance `10` ft — max power `-44` gives one
early detection at `20` ft, `-38` gives the confirmed breach at `10` ft,
`-50` gives neither. -/
theorem check_proximity_breach_tiers_witness :
    check_proximity_breach ⟨true, false, true, 915, -40, 850, -40, 10, 15⟩ 915 [-44] =
      (none, [⟨.wireless, 20, -44, -46, 915, .early⟩]) ∧
    check_proximity_breach ⟨true, false, true, 915, -40, 850, -40, 10, 15⟩ 915 [-38] =
      (some ⟨.wireless, 10, -38, -40, 915, .alert⟩, []) ∧
    check_proximity_breach ⟨true, false, true, 915, -40, 850, -40, 10, 15⟩ 915 [-50] =
      (none, []) := by
  refine ⟨?_, ?_, ?_⟩
  · have h := (check_proximity_breach_tiers ⟨true, false, true, 915, -40, 850, -40, 10, 15⟩
      915 [-44] rfl rfl rfl).1 rfl (by norm_num)
    have := h.1 (by norm_num [np_max]) (by norm_num [np_max])
    norm_num [np_max] at this
    exact this
  · have h := (check_proximity_breach_tiers ⟨true, false, true, 915, -40, 850, -40, 10, 15⟩
      915 [-38] rfl rfl rfl).1 rfl (by norm_num)
    have := h.2.1 (by norm_num [np_max])
    norm_num [np_max] at this
    exact this
  · have h := (check_proximity_breach_tiers ⟨true, false, true, 915, -40, 850, -40, 10, 15⟩
      915 [-50] rfl rfl rfl).1 rfl (by norm_num)
    exact h.2.2 (by norm_num [np_max])

/-- C3 counterexample -- at the spec's end-to-end example the complete output
of the anomaly loop is a single record holding only the bin frequency, the
baseline power, the current power and their difference: the source computes no
`signal_increase_pct` and no `estimated_distance_ft` for an anomaly (no such
computation exists anywhere in `src/rf_ids.py`). -/
theorem scan_anomalies_no_derived_metrics :
    scan_anomalies [100.0, 100.1, 100.2] [-80, -80, -80] [-80, -65, -80] 10 =
      [{ frequency := 100.1, baseline_power := -80, current_power := -65,
         difference := 15 }] := by
  norm_num [scan_anomalies, List.range_succ, List.filterMap_cons,
    List.filterMap_append, List.filterMap_nil, List.getD,
    List.getElem?_cons_zero, List.getElem?_cons_succ]

/-- C3 (amended) -- every anomaly the scorer returns consists of exactly the
four quantities the source stores: the bin frequency, the baseline power, the
current power, and `difference = current - baseline` with `|difference|`
strictly above the threshold; no percentage increase or distance estimate is
attached. -/
theorem scan_anomalies_fields (f b c : List ℚ) (t : ℚ) (a : Anomaly)
    (ha : a ∈ scan_anomalies f b c t) :
    a.difference = a.current_power - a.baseline_power ∧
    ∃ i, i < f.length ∧ a.frequency = f.getD i 0 ∧
      a.baseline_power = b.getD i 0 ∧ a.current_power = c.getD i 0 ∧
      |a.difference| > t := by
  unfold scan_anomalies at ha
  simp only [List.mem_filterMap, List.mem_range] at ha
  obtain ⟨i, hi, hsome⟩ := ha
  split at hsome
  case isTrue h =>
    obtain rfl := Option.some.inj hsome
    exact ⟨rfl, i, hi, rfl, rfl, rfl, h⟩
  case isFalse h => exact absurd hsome (by simp)

/-- Witness for the amended C3: the single record produced on the spec's example has
`difference = current_power - baseline_power = 15`. -/
theorem scan_anomalies_fields_witness :
    (⟨100.1, -80, -65, 15⟩ : Anomaly).difference =
      (⟨100.1, -80, -65, 15⟩ : Anomaly).current_power -
        (⟨100.1, -80, -65, 15⟩ : Anomaly).baseline_power :=
  (scan_anomalies_fields [100.0, 100.1, 100.2] [-80, -80, -80] [-80, -65, -80]
    10 _ (by
      simp only [scan_anomalies, List.mem_filterMap, List.mem_range]
      exact ⟨1, by norm_num, by norm_num [List.getD_cons_zero, List.getD_cons_succ]⟩)).1

/-- C4 -- within a scan cycle proximity is checked before spectral scoring,
and a confirmed breach short-circuits it: when `check_proximity_breach`
returns a breach, the cycle's outcome is that proximity alert, and it is
independent of the stored baseline, of the threshold and of the
baseline-creation flag — no comparison against the baseline happens. -/
theorem scan_proximity_priority (store store2 : ℚ → Option (List ℚ))
    (cs cs2 : Bool) (cfg : ProximityConfig) (t t2 f : ℚ)
    (frequencies psd b b2 : List ℚ)
    (h1 : store f = some b) (h2 : store2 f = some b2)
    (hcap : frequencies.length ≠ 0) (br : ProximityDetection)
    (hbr : (check_proximity_breach cfg f psd).1 = some br) :
    scan_for_intrusions store cs cfg t f (frequencies, psd) = .proximityAlert br ∧
    scan_for_intrusions store cs cfg t f (frequencies, psd) =
      scan_for_intrusions store2 cs2 cfg t2 f (frequencies, psd) := by
  constructor <;> simp [scan_for_intrusions, h1, h2, hcap, hbr]

/-- Witness for C4: a wireless breach at 915 MHz short-circuits the cycle for
two different baselines and thresholds. -/
theorem scan_proximity_priority_witness :
    scan_for_intrusions (fun q => if q = 915 then some [-80] else none) true
        ⟨true, false, true, 915, -40, 850, -40, 10, 15⟩ 5 915 ([915], [-38]) =
      .proximityAlert ⟨.wireless, 10, -38, -40, 915, .alert⟩ ∧
    scan_for_intrusions (fun q => if q = 915 then some [-80] else none) true
        ⟨true, false, true, 915, -40, 850, -40, 10, 15⟩ 5 915 ([915], [-38]) =
      scan_for_intrusions (fun q => if q = 915 then some [-95] else none) false
        ⟨true, false, true, 915, -40, 850, -40, 10, 15⟩ 30 915 ([915], [-38]) :=
  scan_proximity_priority _ _ true false _ 5 30 915 [915] [-38] [-80] [-95]
    (by norm_num) (by norm_num) (by norm_num) _
    (by norm_num [check_proximity_breach, np_max])

/-- C7 -- a scan cycle at a frequency with no stored baseline triggers
baseline creation and reports no detection; the outcome does not involve
deviation scoring at all. -/
theorem scan_missing_baseline (store : ℚ → Option (List ℚ)) (cs : Bool)
    (cfg : ProximityConfig) (t f : ℚ) (captured : List ℚ × List ℚ)
    (h : store f = none) :
    scan_for_intrusions store cs cfg t f captured = .baselineCreated cs ∧
    scan_detected (scan_for_intrusions store cs cfg t f captured) = false := by
  constructor <;> simp [scan_for_intrusions, h, scan_detected]

/-- Witness for C7: empty baseline store, any capture — the cycle creates the
baseline and reports no detection. -/
theorem scan_missing_baseline_witness :
    scan_for_intrusions (fun _ => none) true
        ⟨true, false, true, 915, -40, 850, -40, 10, 15⟩ 10 433 ([433], [-50]) =
      .baselineCreated true ∧
    scan_detected (scan_for_intrusions (fun _ => none) true
        ⟨true, false, true, 915, -40, 850, -40, 10, 15⟩ 10 433 ([433], [-50])) =
      false :=
  scan_missing_baseline (fun _ => none) true _ 10 433 ([433], [-50]) rfl

/-- C5 -- throttle decisions: `send_alert` sends iff at least 300 seconds
(5 minutes) passed since `last_alert_time`, `send_proximity_alert` iff at
least 60 seconds (1 minute); a send records the new time and increments the
count, a throttled call leaves the state unchanged. -/
theorem alert_throttle_intervals (s : AlertState) (now : ℚ) :
    ((send_alert s now).1 = true ↔ now - s.last_alert_time ≥ 300) ∧
    ((send_alert s now).1 = true →
      (send_alert s now).2 = ⟨now, s.alert_count + 1⟩) ∧
    ((send_alert s now).1 = false → (send_alert s now).2 = s) ∧
    ((send_proximity_alert s now).1 = true ↔ now - s.last_alert_time ≥ 60) ∧
    ((send_proximity_alert s now).1 = true →
      (send_proximity_alert s now).2 = ⟨now, s.alert_count + 1⟩) ∧
    ((send_proximity_alert s now).1 = false →
      (send_proximity_alert s now).2 = s) := by
  refine ⟨?_, ?_, ?_, ?_, ?_, ?_⟩
  · by_cases h : now - s.last_alert_time < 300
    · simp only [send_alert, if_pos h]
      exact ⟨fun hf => absurd hf (by simp), fun hle => absurd h (not_lt.mpr hle)⟩
    · simp only [send_alert, if_neg h]
      exact ⟨fun _ => le_of_not_lt h, fun _ => trivial⟩
  · by_cases h : now - s.last_alert_time < 300 <;> simp [send_alert, h]
  · by_cases h : now - s.last_alert_time < 300 <;> simp [send_alert, h]
  · by_cases h : now - s.last_alert_time < 60
    · simp only [send_proximity_alert, if_pos h]
      exact ⟨fun hf => absurd hf (by simp), fun hle => absurd h (not_lt.mpr hle)⟩
    · simp only [send_proximity_alert, if_neg h]
      exact ⟨fun _ => le_of_not_lt h, fun _ => trivial⟩
  · by_cases h : now - s.last_alert_time < 60 <;> simp [send_proximity_alert, h]
  · by_cases h : now - s.last_alert_time < 60 <;> simp [send_proximity_alert, h]

/-- Witness for C5: from `last_alert_time = 0`, a spectral alert at `t = 300`
and a proximity alert at `t = 60` both go through. -/
theorem alert_throttle_intervals_witness :
    (send_alert ⟨0, 0⟩ 300).1 = true ∧ (send_proximity_alert ⟨0, 0⟩ 60).1 = true :=
  ⟨(alert_throttle_intervals ⟨0, 0⟩ 300).1.mpr (by norm_num),
   (alert_throttle_intervals ⟨0, 0⟩ 60).2.2.2.1.mpr (by norm_num)⟩

/-- C6 counterexample -- throttle state is shared between categories: with
`last_alert_time = -3600`, a proximity alert sent at `t = 0` advances the
shared `last_alert_time`, after which a spectral-anomaly alert at `t = 100`
is throttled — whereas without that proximity alert it would have been sent. -/
theorem shared_throttle_cross_category_counterexample :
    (send_proximity_alert ⟨-3600, 0⟩ 0).1 = true ∧
    (send_alert (send_proximity_alert ⟨-3600, 0⟩ 0).2 100).1 = false ∧
    (send_alert ⟨-3600, 0⟩ 100).1 = true := by
  refine ⟨?_, ?_, ?_⟩ <;> norm_num [send_alert, send_proximity_alert]

/-- C6 (amended) -- `last_alert_time` and `alert_count` are one shared
instance, not per-category: a proximity alert sent less than 300 s before a
spectral-anomaly attempt throttles it, and a spectral alert sent less than
60 s before a proximity attempt throttles it. -/
theorem shared_throttle_cross_category (s : AlertState) (t t' : ℚ) :
    ((send_proximity_alert s t).1 = true → t' - t < 300 →
      (send_alert (send_proximity_alert s t).2 t').1 = false) ∧
    ((send_alert s t).1 = true → t' - t < 60 →
      (send_proximity_alert (send_alert s t).2 t').1 = false) := by
  constructor
  · intro h1 h2
    by_cases h : t - s.last_alert_time < 60
    · simp [send_proximity_alert, h] at h1
    · simp [send_proximity_alert, send_alert, h, h2]
  · intro h1 h2
    by_cases h : t - s.last_alert_time < 300
    · simp [send_alert, h] at h1
    · simp [send_alert, send_proximity_alert, h, h2]

/-- Witness for the amended C6: concretely, the proximity alert sent at
`t = 0` throttles the spectral alert attempted at `t = 100`. -/
theorem shared_throttle_cross_category_witness :
    (send_alert (send_proximity_alert ⟨-3600, 0⟩ 0).2 100).1 = false :=
  (shared_throttle_cross_category ⟨-3600, 0⟩ 0 100).1
    (by norm_num [send_proximity_alert]) (by norm_num)

/-- C9 counterexample -- `monitor_frequency` drops the frequency after three
failed attempts even when both between-attempt device re-initializations
succeeded: re-initialization success does not prevent the drop. -/
theorem monitor_frequency_drop_counterexample :
    monitor_frequency .err .err .err true true =
      { result := false, dropped := true, attempts_made := 3, backoff_secs := 4 } :=
  rfl

/-- C9 (amended) -- bounded retry: at most 3 attempts with a 2-second backoff
before each retry; the frequency is dropped iff all three attempts fail,
regardless of the re-initialization outcomes (which never change the result);
a run whose monitoring succeeds on some attempt is never dropped. -/
theorem monitor_frequency_drop_iff (a0 a1 a2 : AttemptResult)
    (r1 r2 r1' r2' : Bool) :
    ((monitor_frequency a0 a1 a2 r1 r2).dropped = true ↔
      a0 = .err ∧ a1 = .err ∧ a2 = .err) ∧
    monitor_frequency a0 a1 a2 r1 r2 = monitor_frequency a0 a1 a2 r1' r2' ∧
    (monitor_frequency a0 a1 a2 r1 r2).attempts_made ≤ 3 ∧
    (monitor_frequency a0 a1 a2 r1 r2).backoff_secs =
      2 * ((monitor_frequency a0 a1 a2 r1 r2).attempts_made - 1) := by
  cases a0 <;> cases a1 <;> cases a2 <;> simp [monitor_frequency]

/-- Witness for the amended C9: a concrete all-failure run is invariant under
swapping the re-initialization outcomes. -/
theorem monitor_frequency_drop_iff_witness :
    monitor_frequency .err .err .err true true =
      monitor_frequency .err .err .err false false :=
  (monitor_frequency_drop_iff .err .err .err true true false false).2.1

/-- C8 -- Device Tracker `observe` (modelled from the spec, §4.4): a new
identity is inserted with `first_seen = last_seen = at`; an existing one has
`last_seen`/`last_status` updated in place with its `first_seen` preserved;
no observation removes a tracked entity; and observing `"wireless_915"` at
`t1` then at `t2 > t1` yields `first_seen = t1`, `last_seen = t2`. -/
theorem observe_tracks (tracker : List TrackedEntity) (idt : String)
    (status : TrackStatus) (t : ℚ) :
    (tracker.find? (fun e => e.identity = idt) = none →
      observe tracker idt status t =
        (⟨idt, t, t, status⟩, tracker ++ [⟨idt, t, t, status⟩])) ∧
    (∀ e, tracker.find? (fun e => e.identity = idt) = some e →
      (observe tracker idt status t).1 = ⟨e.identity, e.first_seen, t, status⟩ ∧
      (observe tracker idt status t).2 = tracker.map (fun x =>
        if x.identity = idt then ⟨x.identity, x.first_seen, t, status⟩ else x)) ∧
    (∀ x ∈ tracker, ∃ y ∈ (observe tracker idt status t).2,
      y.identity = x.identity ∧ y.first_seen = x.first_seen) ∧
    (∀ (st1 st2 : TrackStatus) (t1 t2 : ℚ), t1 < t2 →
      (observe (observe [] "wireless_915" st1 t1).2
          "wireless_915" st2 t2).1.first_seen = t1 ∧
      (observe (observe [] "wireless_915" st1 t1).2
          "wireless_915" st2 t2).1.last_seen = t2) := by
  refine ⟨?_, ?_, ?_, ?_⟩
  · intro h
    simp [observe, h]
  · intro e he
    simp [observe, he]
  · intro x hx
    cases hfind : tracker.find? (fun e => e.identity = idt) with
    | none =>
      exact ⟨x, by simp [observe, hfind, hx], rfl, rfl⟩
    | some e =>
      refine ⟨if x.identity = idt then ⟨x.identity, x.first_seen, t, status⟩ else x,
        ?_, ?_, ?_⟩
      · simp only [observe, hfind]
        exact List.mem_map_of_mem _ hx
      · by_cases hid : x.identity = idt <;> simp [hid]
      · by_cases hid : x.identity = idt <;> simp [hid]
  · intro st1 st2 t1 t2 _
    constructor <;> simp [observe]

/-- Witness for C8: `"wireless_915"` observed at `t1 = 5` then `t2 = 9` ends
with `first_seen = 5` and `last_seen = 9`. -/
theorem observe_tracks_witness :
    (observe (observe [] "wireless_915" .earlyDetection 5).2
        "wireless_915" .alert 9).1.first_seen = 5 ∧
    (observe (observe [] "wireless_915" .earlyDetection 5).2
        "wireless_915" .alert 9).1.last_seen = 9 :=
  (observe_tracks [] "wireless_915" .alert 9).2.2.2 .earlyDetection .alert 5 9
    (by norm_num)

/-- C10 -- when both calibrations share the reference frequency and the
sample's max power exceeds the wireless reference, `check_proximity_breach`
returns the wireless breach, and the cellular thresholds are never examined:
the whole result is unchanged under any cellular power/distance calibration.
At most one breach is returned per scan by construction (`Option` result). -/
theorem check_proximity_wireless_first (cfg : ProximityConfig) (f : ℚ)
    (psd : List ℚ) (hE : cfg.enabled = true) (hN : cfg.calibration_needed = false)
    (hH : cfg.has_calibration = true) (hwf : f = cfg.wireless_freq)
    (hcf : f = cfg.cellular_freq) (hgt : np_max psd > cfg.wireless_power) :
    (check_proximity_breach cfg f psd).1 =
      some ⟨.wireless, cfg.bluetooth_distance_threshold, np_max psd,
        cfg.wireless_power, f, .alert⟩ ∧
    (∀ cp cd : ℚ,
      check_proximity_breach
        { cfg with cellular_power := cp, cellular_distance_threshold := cd } f psd =
      check_proximity_breach cfg f psd) := by
  have hle : ¬ np_max psd ≤ cfg.wireless_power := not_le.mpr hgt
  constructor
  · simp [check_proximity_breach, hE, hN, hH, ← hwf, ← hcf, hgt, hle]
  · intro cp cd
    simp [check_proximity_breach, hE, hN, hH, ← hwf, ← hcf, hgt, hle]

/-- Witness for C10: shared reference frequency 915, wireless reference `-40`,
cellular reference `-70` (which would also be breached) — the wireless breach
is returned and replacing the cellular calibration changes nothing. -/
theorem check_proximity_wireless_first_witness :
    (check_proximity_breach ⟨true, false, true, 915, -40, 915, -70, 10, 15⟩
        915 [-38]).1 =
      some ⟨.wireless, 10, -38, -40, 915, .alert⟩ ∧
    check_proximity_breach ⟨true, false, true, 915, -40, 915, -20, 10, 99⟩
        915 [-38] =
      check_proximity_breach ⟨true, false, true, 915, -40, 915, -70, 10, 15⟩
        915 [-38] := by
  have h := check_proximity_wireless_first
    ⟨true, false, true, 915, -40, 915, -70, 10, 15⟩ 915 [-38]
    rfl rfl rfl rfl rfl (by norm_num [np_max])
  constructor
  · have := h.1
    norm_num [np_max] at this
    exact this
  · exact h.2 (-20) 99

end RFIDS
